import Mathlib

/-!
Verification of the sensor-service core of `@umituz/react-native-sensors`.

Shallow embedding conventions:
* JavaScript numbers that carry exact integer or decimal values are modelled as
  `ℤ`/`ℕ`/`ℚ`.  `Math.floor`/`Math.ceil` become `Int.floor`/`Int.ceil` on `ℚ`.
* `Number.prototype.toFixed(2)` followed by `parseFloat` is modelled as exact
  rational rounding to hundredths with half-up ties (`round2`).  Binary doubles
  can resolve a decimal tie the other way; every concrete input used below is
  far from a tie, so the rational model and the JavaScript value agree there.
* Timestamps are milliseconds since the epoch (`ℤ`), with local time identified
  with UTC (no DST), so `new Date(y, m, d, 0, 0, 0)` is a floor to a multiple
  of `msPerDay` and `setDate(getDate() - i)` subtracts `i * msPerDay`.
* `Math.random()` draws are an oracle stream `rand : ℕ → ℚ` of values in
  `[0, 1)`; the `i`-th draw of a call is `rand i`.
* The external Expo pedometer is an oracle
  `ped : ℤ → ℤ → Except Unit (Option ℕ)`: `error` models a rejected promise,
  `ok none` a `null` result, `ok (some n)` a result carrying `steps = n`.
-/

namespace RNSensors

/-! ### Metric calculator (`src/domain/utils/StepCalculator.ts`) -/

/-- `StepCalculator.DEFAULT_STRIDE_LENGTH` (meters). -/
def DEFAULT_STRIDE_LENGTH : ℚ := 0.76

/-- `StepCalculator.DEFAULT_WEIGHT_KG`. -/
def DEFAULT_WEIGHT_KG : ℚ := 70

/-- `StepCalculator.DEFAULT_STEPS_PER_MINUTE`. -/
def DEFAULT_STEPS_PER_MINUTE : ℚ := 120

/-- `StepCalculator.CALORIES_PER_1000_STEPS`. -/
def CALORIES_PER_1000_STEPS : ℚ := 45

/-- `parseFloat(x.toFixed(2))`: rounding to two decimal places.  ECMAScript
`toFixed` picks the larger candidate on a tie, i.e. half-up. -/
def round2 (x : ℚ) : ℚ := ((⌊x * 100 + 1 / 2⌋ : ℤ) : ℚ) / 100

/-- `StepCalculator.calculateDistance(steps, strideLength)`:
`parseFloat(((steps * strideLength) / 1000).toFixed(2))`. -/
def calculateDistance (steps : ℤ) (strideLength : ℚ) : ℚ :=
  round2 ((steps * strideLength) / 1000)

/-- `StepCalculator.calculateCalories(steps, weightKg)`:
`Math.floor((steps / 1000) * 45 * (weightKg / 70))`. -/
def calculateCalories (steps : ℤ) (weightKg : ℚ) : ℤ :=
  ⌊(steps : ℚ) / 1000 * CALORIES_PER_1000_STEPS * (weightKg / DEFAULT_WEIGHT_KG)⌋

/-- `StepCalculator.calculateActiveMinutes(steps, stepsPerMinute)`:
`Math.floor(steps / stepsPerMinute)`. -/
def calculateActiveMinutes (steps : ℤ) (stepsPerMinute : ℚ) : ℤ :=
  ⌊(steps : ℚ) / stepsPerMinute⌋

/-- `StepCalculator.stepsForDistance(distanceKm, strideLength)`:
`Math.ceil(distanceKm * 1000 / strideLength)`. -/
def stepsForDistance (distanceKm strideLength : ℚ) : ℤ :=
  ⌈distanceKm * 1000 / strideLength⌉

/-- `StepCalculator.calculatePace(steps, minutes)`: `0` when `minutes === 0`,
else `Math.floor(steps / minutes)`. -/
def calculatePace (steps minutes : ℤ) : ℤ :=
  if minutes = 0 then 0 else ⌊(steps : ℚ) / (minutes : ℚ)⌋

/-! ### Time model -/

/-- Milliseconds per hour. -/
def msPerHour : ℤ := 3600000

/-- Milliseconds per day. -/
def msPerDay : ℤ := 86400000

/-- `new Date(t.getFullYear(), t.getMonth(), t.getDate(), 0, 0, 0).getTime()`:
midnight of the local day containing `t`. -/
def startOfDayMs (t : ℤ) : ℤ := Int.fdiv t msPerDay * msPerDay

/-- `t.getHours()`. -/
def hourOfDay (t : ℤ) : ℤ := Int.fdiv (Int.fmod t msPerDay) msPerHour

/-- `t.getDay()` (0 = Sunday); January 1 1970 was a Thursday. -/
def dayOfWeek (t : ℤ) : ℤ := (Int.fdiv t msPerDay + 4) % 7

/-! ### Entities (`src/domain/entities/StepData.ts`) -/

/-- The `source` provenance tag of `StepData`. -/
inductive Source where
  | pedometer
  | healthkit
  | googlefit
  | mock
deriving DecidableEq, Repr

/-- The `StepData` entity. -/
structure StepData where
  id : String
  steps : ℕ
  distance : ℚ
  calories : ℤ
  activeMinutes : ℤ
  startDate : ℤ
  endDate : ℤ
  source : Source
deriving DecidableEq, Repr

/-- The `HourlyStepData` entity. -/
structure HourlyStepData where
  hour : ℕ
  steps : ℕ
  timestamp : ℤ
deriving DecidableEq, Repr

/-- The `DailyStepData` entity (`StepData` plus breakdown and goal fields). -/
structure DailyStepData extends StepData where
  hourlyData : List HourlyStepData
  goalMet : Bool
  goalTarget : ℕ
deriving DecidableEq, Repr

/-! ### Mock adapter (`src/infrastructure/adapters/MockSensorAdapter.ts`) -/

/-- The `stepsPerHour` table of `generateRealisticDailySteps` (25 entries as
written in the source). -/
def stepsPerHour : List ℕ :=
  [100, 100, 50, 50, 50, 200,
   800, 1200,
   1500, 1200, 800, 600,
   1000,
   500, 400, 400, 500,
   1200, 1500,
   800, 600, 400, 200,
   100, 100]

/-- The `distribution` table of `generateHourlyData`, scaled to hundredths
(the source writes `0.01`, `0.02`, …; 25 entries as written). -/
def distribution : List ℕ :=
  [1, 1, 1, 1, 1, 2,
   8, 12,
   15, 12, 8, 6,
   10,
   5, 4, 4, 5,
   12, 15,
   8, 6, 4, 2,
   1, 1]

/-- `MockSensorAdapter.generateRealisticDailySteps(currentHour)`: sum of
`stepsPerHour[hour]` for `hour` from `0` to `min(currentHour, 23)` inclusive. -/
def generateRealisticDailySteps (currentHour : ℕ) : ℕ :=
  (stepsPerHour.take (min (currentHour + 1) 24)).sum

/-- `MockSensorAdapter.generateHourlyData(totalSteps)`: maps the weight table
to `{hour, steps: Math.floor(totalSteps * percentage), timestamp}`; the
timestamp is today's date with the hour field set (`setHours(hour, 0, 0, 0)`).
`Math.floor(totalSteps * (p / 100))` is the natural-number division
`totalSteps * p / 100` since `p / 100` is exact in hundredths. -/
def generateHourlyData (totalSteps : ℕ) (now : ℤ) : List HourlyStepData :=
  distribution.enum.map fun e =>
    { hour := e.1
      steps := totalSteps * e.2 / 100
      timestamp := startOfDayMs now + (e.1 : ℤ) * msPerHour }

/-- `MockSensorAdapter.getStepCount(startDate, endDate)`:
`hours = |end - start| / 3600000`, `baseSteps = floor(hours * 400)`,
`variation = floor(random() * 200) - 100`, `steps = max(0, base + variation)`. -/
def mockGetStepCount (startDate endDate : ℤ) (rand : ℕ → ℚ) : StepData :=
  let hours : ℚ := |((endDate : ℚ)) - ((startDate : ℚ))| / 3600000
  let baseSteps : ℤ := ⌊hours * 400⌋
  let variation : ℤ := ⌊rand 0 * 200⌋ - 100
  let steps : ℕ := (max 0 (baseSteps + variation)).toNat
  { id := s!"mock-{startDate}-{endDate}"
    steps := steps
    distance := calculateDistance steps DEFAULT_STRIDE_LENGTH
    calories := calculateCalories steps DEFAULT_WEIGHT_KG
    activeMinutes := calculateActiveMinutes steps DEFAULT_STEPS_PER_MINUTE
    startDate := startDate
    endDate := endDate
    source := .mock }

/-- `MockSensorAdapter.getTodaySteps()`: builds its record directly from the
diurnal table at the current hour (it does not call `getStepCount`). -/
def mockGetTodaySteps (now : ℤ) : StepData :=
  let startOfDay := startOfDayMs now
  let steps := generateRealisticDailySteps (hourOfDay now).toNat
  { id := s!"mock-today-{now}"
    steps := steps
    distance := calculateDistance steps DEFAULT_STRIDE_LENGTH
    calories := calculateCalories steps DEFAULT_WEIGHT_KG
    activeMinutes := calculateActiveMinutes steps DEFAULT_STEPS_PER_MINUTE
    startDate := startOfDay
    endDate := now
    source := .mock }

/-- The day-`i` record built inside `MockSensorAdapter.getHistoricalSteps`:
`date = today - i days`, weekend/weekday uniform total, derived metrics,
hourly breakdown from `generateHourlyData` (whose timestamps use *today*). -/
def mockHistoricalDay (now : ℤ) (rand : ℕ → ℚ) (i : ℕ) : DailyStepData :=
  let date : ℤ := now - (i : ℤ) * msPerDay
  let startOfDay := startOfDayMs date
  let endOfDay := startOfDay + (msPerDay - 1000)
  let isWeekend : Bool := dayOfWeek date = 0 ∨ dayOfWeek date = 6
  let baseSteps : ℤ :=
    if isWeekend then ⌊rand i * 11000⌋ + 4000 else ⌊rand i * 5000⌋ + 7000
  let steps : ℕ := baseSteps.toNat
  let goalTarget : ℕ := 10000
  { id := s!"mock-{date}"
    steps := steps
    distance := calculateDistance steps DEFAULT_STRIDE_LENGTH
    calories := calculateCalories steps DEFAULT_WEIGHT_KG
    activeMinutes := calculateActiveMinutes steps DEFAULT_STEPS_PER_MINUTE
    startDate := startOfDay
    endDate := endOfDay
    source := .mock
    hourlyData := generateHourlyData steps now
    goalMet := decide (goalTarget ≤ steps)
    goalTarget := goalTarget }

/-- `MockSensorAdapter.getHistoricalSteps(days)`: pushes one record per
`i ∈ [0, days)` and reverses (oldest first).  `days ≤ 0` runs the loop zero
times. -/
def mockGetHistoricalSteps (days : ℤ) (now : ℤ) (rand : ℕ → ℚ) :
    List DailyStepData :=
  ((List.range days.toNat).map (mockHistoricalDay now rand)).reverse

/-! ### Expo pedometer adapter
(`src/infrastructure/adapters/ExpoPedometerAdapter.ts`) -/

/-- The external pedometer range-query capability:
`Pedometer.getStepCountAsync(start, end)`.  `error` is a rejected promise,
`ok none` a `null` result. -/
def PedOracle := ℤ → ℤ → Except Unit (Option ℕ)

/-- `ExpoPedometerAdapter.getStepCount(startDate, endDate)`: on success,
`steps = result?.steps ?? 0` with derived metrics; on a thrown/rejected query,
an all-zero record with the same id, dates and source. -/
def expoGetStepCount (startDate endDate : ℤ) (ped : PedOracle) : StepData :=
  match ped startDate endDate with
  | .ok r =>
      let steps : ℕ := r.getD 0
      { id := s!"{startDate}-{endDate}"
        steps := steps
        distance := calculateDistance steps DEFAULT_STRIDE_LENGTH
        calories := calculateCalories steps DEFAULT_WEIGHT_KG
        activeMinutes := calculateActiveMinutes steps DEFAULT_STEPS_PER_MINUTE
        startDate := startDate
        endDate := endDate
        source := .pedometer }
  | .error _ =>
      { id := s!"{startDate}-{endDate}"
        steps := 0
        distance := 0
        calories := 0
        activeMinutes := 0
        startDate := startDate
        endDate := endDate
        source := .pedometer }

/-- `ExpoPedometerAdapter.getTodaySteps()`: delegates to
`getStepCount(startOfDay, now)`. -/
def expoGetTodaySteps (now : ℤ) (ped : PedOracle) : StepData :=
  expoGetStepCount (startOfDayMs now) now ped

/-- `ExpoPedometerAdapter.getHourlyBreakdown(startOfDay, endOfDay)`: for each
hour `0..23`, queries `[hour:00:00.000, hour:59:59.999]`; a failed sub-query
degrades to `steps = 0` for that hour only. -/
def expoGetHourlyBreakdown (startOfDay : ℤ) (ped : PedOracle) :
    List HourlyStepData :=
  (List.range 24).map fun (hour : ℕ) =>
    let hourStart := startOfDay + (hour : ℤ) * msPerHour
    let hourEnd := hourStart + 3599999
    { hour := hour
      steps := match ped hourStart hourEnd with
               | .ok r => r.getD 0
               | .error _ => 0
      timestamp := hourStart }

/-- The day-`i` record built inside `ExpoPedometerAdapter.getHistoricalSteps`. -/
def expoHistoricalDay (now : ℤ) (ped : PedOracle) (i : ℕ) : DailyStepData :=
  let date : ℤ := now - (i : ℤ) * msPerDay
  let startOfDay := startOfDayMs date
  let endOfDay := startOfDay + (msPerDay - 1000)
  let dayData := expoGetStepCount startOfDay endOfDay ped
  let goalTarget : ℕ := 10000
  { toStepData := dayData
    hourlyData := expoGetHourlyBreakdown startOfDay ped
    goalMet := decide (goalTarget ≤ dayData.steps)
    goalTarget := goalTarget }

/-- `ExpoPedometerAdapter.getHistoricalSteps(days)`: one record per
`i ∈ [0, days)`, reversed to oldest-first. -/
def expoGetHistoricalSteps (days : ℤ) (now : ℤ) (ped : PedOracle) :
    List DailyStepData :=
  ((List.range days.toNat).map (expoHistoricalDay now ped)).reverse

/-! ### Subscription lifecycle

The mutable per-instance state of each adapter together with the external
registry of live listeners (`world`): `Pedometer.watchStepCount` /
`setInterval` append a fresh handle, `subscription.remove()` /
`clearInterval` erase it.  Fresh handles come from a counter. -/

/-- A call the consumer can make on the subscription lifecycle. -/
inductive SubOp where
  | start
  | stop
deriving DecidableEq, Repr

/-- Instance fields of `ExpoPedometerAdapter` (`subscription`,
`lastStepCount`) plus the registry of live external listeners and the
fresh-handle counter. -/
structure ExpoCfg where
  sub : Option ℕ
  lastStepCount : ℤ
  world : List ℕ
  fresh : ℕ
deriving DecidableEq, Repr

/-- Initial state of a new `ExpoPedometerAdapter` instance. -/
def expoInit : ExpoCfg :=
  { sub := none, lastStepCount := 0, world := [], fresh := 0 }

/-- One `startStepCounting`/`stopStepCounting` call on the Expo adapter.
`start` first calls `remove()` on any existing subscription, then registers a
fresh listener and stores its handle; `stop` removes and nulls the handle and
resets `lastStepCount` to `0`. -/
def expoStep (op : SubOp) (c : ExpoCfg) : ExpoCfg :=
  match op with
  | .start =>
      let w := match c.sub with
               | some s => c.world.erase s
               | none => c.world
      { sub := some c.fresh
        lastStepCount := c.lastStepCount
        world := w ++ [c.fresh]
        fresh := c.fresh + 1 }
  | .stop =>
      let w := match c.sub with
               | some s => c.world.erase s
               | none => c.world
      { sub := none, lastStepCount := 0, world := w, fresh := c.fresh }

/-- The cleanup closure returned by `ExpoPedometerAdapter.startStepCounting`:
if a subscription is live it removes it and nulls the handle; it does not
touch `lastStepCount`. -/
def expoCleanup (c : ExpoCfg) : ExpoCfg :=
  match c.sub with
  | some s =>
      { sub := none
        lastStepCount := c.lastStepCount
        world := c.world.erase s
        fresh := c.fresh }
  | none => c

/-- Run a sequence of lifecycle calls on a fresh Expo adapter instance. -/
def expoRun (ops : List SubOp) : ExpoCfg :=
  ops.foldl (fun c op => expoStep op c) expoInit

/-- Instance fields of `MockSensorAdapter` (`intervalId`, `isRunning`,
`currentSteps`) plus the registry of live timers and the fresh counter. -/
structure MockCfg where
  intervalId : Option ℕ
  isRunning : Bool
  currentSteps : ℕ
  world : List ℕ
  fresh : ℕ
deriving DecidableEq, Repr

/-- Initial state of a new `MockSensorAdapter` instance. -/
def mockInit : MockCfg :=
  { intervalId := none, isRunning := false, currentSteps := 0,
    world := [], fresh := 0 }

/-- `MockSensorAdapter.stopStepCounting()`: clears the interval if set, nulls
it, and resets `isRunning` and `currentSteps`. -/
def mockStopEffect (c : MockCfg) : MockCfg :=
  let w := match c.intervalId with
           | some s => c.world.erase s
           | none => c.world
  { intervalId := none, isRunning := false, currentSteps := 0,
    world := w, fresh := c.fresh }

/-- One `startStepCounting`/`stopStepCounting` call on the mock adapter.
`start` first awaits `stopStepCounting` when `isRunning`, then registers a
fresh interval. -/
def mockStep (op : SubOp) (c : MockCfg) : MockCfg :=
  match op with
  | .start =>
      let c1 := if c.isRunning then mockStopEffect c else c
      { intervalId := some c1.fresh
        isRunning := true
        currentSteps := 0
        world := c1.world ++ [c1.fresh]
        fresh := c1.fresh + 1 }
  | .stop => mockStopEffect c

/-- Run a sequence of lifecycle calls on a fresh mock adapter instance. -/
def mockRun (ops : List SubOp) : MockCfg :=
  ops.foldl (fun c op => mockStep op c) mockInit

/-! ### Helper lemmas -/

/-- Rounding to hundredths can lose strictly less than half a hundredth. -/
lemma round2_gt (x : ℚ) : x - 1 / 200 < round2 x := by
  unfold round2
  have h := Int.sub_one_lt_floor (x * 100 + 1 / 2)
  rw [lt_div_iff₀ (by norm_num : (0 : ℚ) < 100)]
  linarith

/-- The derived metrics attached to an all-zero record coincide with the
calculator applied to `steps = 0`. -/
lemma calc_at_zero :
    calculateDistance 0 DEFAULT_STRIDE_LENGTH = 0 ∧
    calculateCalories 0 DEFAULT_WEIGHT_KG = 0 ∧
    calculateActiveMinutes 0 DEFAULT_STEPS_PER_MINUTE = 0 := by
  refine ⟨?_, ?_, ?_⟩ <;>
    norm_num [calculateDistance, calculateCalories, calculateActiveMinutes,
      round2, DEFAULT_STRIDE_LENGTH, DEFAULT_WEIGHT_KG,
      DEFAULT_STEPS_PER_MINUTE, CALORIES_PER_1000_STEPS]

/-! ### Claim C5 -/

/-- Claim C5, counterexample: at `s = 6` the round trip
`stepsForDistance(calculateDistance(6))` yields `0 < 6`, because
`6 × 0.76 / 1000 = 0.00456` rounds to `0.00` km.  So the ceil-based inverse
does under-estimate for some non-negative `s`. -/
theorem c5_roundtrip_counterexample :
    stepsForDistance (calculateDistance 6 DEFAULT_STRIDE_LENGTH)
        DEFAULT_STRIDE_LENGTH = 0 ∧
    ¬ (6 : ℤ) ≤ stepsForDistance (calculateDistance 6 DEFAULT_STRIDE_LENGTH)
        DEFAULT_STRIDE_LENGTH := by
  have h : stepsForDistance (calculateDistance 6 DEFAULT_STRIDE_LENGTH)
      DEFAULT_STRIDE_LENGTH = 0 := by
    norm_num [stepsForDistance, calculateDistance, round2,
      DEFAULT_STRIDE_LENGTH]
  exact ⟨h, by rw [h]; norm_num⟩

/-- Claim C5 as amended: the round trip with the default stride `0.76` can
under-shoot, but by at most `6` steps (the two-decimal rounding of the
distance loses less than `0.005 km ≈ 6.58` steps and the `ceil` recovers the
rest): for every integer `s`,
`stepsForDistance(calculateDistance(s)) ≥ s - 6`. -/
theorem c5_roundtrip_lower (s : ℤ) :
    s - 6 ≤ stepsForDistance (calculateDistance s DEFAULT_STRIDE_LENGTH)
      DEFAULT_STRIDE_LENGTH := by
  have hstride : DEFAULT_STRIDE_LENGTH = 19 / 25 := by
    norm_num [DEFAULT_STRIDE_LENGTH]
  set d : ℚ := calculateDistance s DEFAULT_STRIDE_LENGTH with hd
  have hlb : (s : ℚ) * (19 / 25) / 1000 - 1 / 200 < d := by
    rw [hd, calculateDistance, hstride]
    exact round2_gt _
  have hq : (s : ℚ) - 125 / 19 < d * 1000 / (19 / 25) := by
    rw [lt_div_iff₀ (by norm_num : (0 : ℚ) < 19 / 25)]
    have h1000 : (s : ℚ) * (19 / 25) - 5 < d * 1000 := by linarith
    calc ((s : ℚ) - 125 / 19) * (19 / 25)
        = (s : ℚ) * (19 / 25) - 5 := by ring
    _ < d * 1000 := h1000
  have hceil : (s : ℚ) - 125 / 19 <
      ((stepsForDistance d DEFAULT_STRIDE_LENGTH : ℤ) : ℚ) := by
    calc (s : ℚ) - 125 / 19 < d * 1000 / (19 / 25) := hq
    _ ≤ _ := by rw [stepsForDistance, hstride]; exact Int.le_ceil _
  have h7 : ((s - 7 : ℤ) : ℚ) <
      ((stepsForDistance d DEFAULT_STRIDE_LENGTH : ℤ) : ℚ) := by
    push_cast
    have : (125 : ℚ) / 19 < 7 := by norm_num
    linarith
  have h8 : s - 7 < stepsForDistance d DEFAULT_STRIDE_LENGTH := by
    exact_mod_cast h7
  omega

/-! ### Claim C6 -/

/-- Claim C6, counterexample: negative steps are not clamped to `0`:
`calculateDistance(-1000) = -0.76 ≠ 0` (there is no sign guard in the code;
the product is rounded as-is). -/
theorem c6_distance_counterexample :
    calculateDistance (-1000) DEFAULT_STRIDE_LENGTH = -(19 / 25) ∧
    calculateDistance (-1000) DEFAULT_STRIDE_LENGTH ≠ 0 := by
  have h : calculateDistance (-1000) DEFAULT_STRIDE_LENGTH = -(19 / 25) := by
    norm_num [calculateDistance, round2, DEFAULT_STRIDE_LENGTH]
  exact ⟨h, by rw [h]; norm_num⟩

/-- Claim C6 as amended: for every integer `steps` and rational stride,
`calculateDistance` is the product `steps × strideLength / 1000` rounded to
two decimal places half-up (Mathlib's `round` of the value scaled to
hundredths), with no special-casing of negative inputs; `steps = 0` still
yields `0`. -/
theorem c6_distance_formula (s : ℤ) (l : ℚ) :
    calculateDistance s l = ((round ((s : ℚ) * l / 10) : ℤ) : ℚ) / 100 ∧
    calculateDistance 0 l = 0 := by
  constructor
  · rw [calculateDistance, round2, round_eq]
    congr 2
    ring
  · rw [calculateDistance, round2]
    norm_num

/-! ### Claim C9 -/

/-- Claim C9: `calculatePace(steps, 0) = 0` (the zero-divisor branch is
guarded), and for every non-zero `minutes` the result is exactly
`⌊steps / minutes⌋`, characterized by the floor inequalities; the function is
total, so it never faults. -/
theorem c9_pace_spec (s m : ℤ) :
    calculatePace s 0 = 0 ∧
    (m ≠ 0 →
      ((calculatePace s m : ℤ) : ℚ) ≤ (s : ℚ) / (m : ℚ) ∧
      (s : ℚ) / (m : ℚ) < ((calculatePace s m : ℤ) : ℚ) + 1) := by
  constructor
  · simp [calculatePace]
  · intro hm
    rw [calculatePace, if_neg hm]
    exact ⟨Int.floor_le _, Int.lt_floor_add_one _⟩

/-- Witness for C9 at `(s, m) = (7, 2)` and the guard at `(7, 0)`. -/
theorem c9_pace_spec_witness :
    calculatePace 7 0 = 0 ∧
    ((calculatePace 7 2 : ℤ) : ℚ) ≤ ((7 : ℤ) : ℚ) / ((2 : ℤ) : ℚ) ∧
    ((7 : ℤ) : ℚ) / ((2 : ℤ) : ℚ) < ((calculatePace 7 2 : ℤ) : ℚ) + 1 :=
  ⟨(c9_pace_spec 7 0).1, (c9_pace_spec 7 2).2 (by decide)⟩

/-! ### Claim C2 -/

/-- One Expo lifecycle call preserves the single-listener invariant. -/
lemma expoStep_inv (op : SubOp) (c : ExpoCfg)
    (h : c.world = c.sub.toList) :
    (expoStep op c).world = (expoStep op c).sub.toList := by
  cases op <;> cases hs : c.sub <;>
    simp [expoStep, hs, h, List.erase_cons]

/-- Folding Expo lifecycle calls from any state satisfying the invariant
stays in the invariant. -/
lemma expoFold_inv (ops : List SubOp) (c : ExpoCfg)
    (h : c.world = c.sub.toList) :
    (ops.foldl (fun c op => expoStep op c) c).world =
      (ops.foldl (fun c op => expoStep op c) c).sub.toList := by
  induction ops generalizing c with
  | nil => exact h
  | cons op ops ih => exact ih _ (expoStep_inv op c h)

/-- One mock lifecycle call preserves the single-timer invariant together
with the `isRunning`/`intervalId` agreement. -/
lemma mockStep_inv (op : SubOp) (c : MockCfg)
    (h : c.world = c.intervalId.toList ∧ c.isRunning = c.intervalId.isSome) :
    (mockStep op c).world = (mockStep op c).intervalId.toList ∧
    (mockStep op c).isRunning = (mockStep op c).intervalId.isSome := by
  obtain ⟨h1, h2⟩ := h
  cases op <;> cases hs : c.intervalId <;>
    simp [mockStep, mockStopEffect, hs, h1, h2, List.erase_cons]

/-- Folding mock lifecycle calls preserves the invariant. -/
lemma mockFold_inv (ops : List SubOp) (c : MockCfg)
    (h : c.world = c.intervalId.toList ∧
      c.isRunning = c.intervalId.isSome) :
    (ops.foldl (fun c op => mockStep op c) c).world =
      (ops.foldl (fun c op => mockStep op c) c).intervalId.toList ∧
    (ops.foldl (fun c op => mockStep op c) c).isRunning =
      (ops.foldl (fun c op => mockStep op c) c).intervalId.isSome := by
  induction ops generalizing c with
  | nil => exact h
  | cons op ops ih => exact ih _ (mockStep_inv op c h)

/-- Claim C2: after any sequence of `startStepCounting`/`stopStepCounting`
calls on one instance of either adapter, the set of live external listeners
is exactly the one recorded in the instance's subscription handle — so at
most one listener is ever live, no duplicate is leaked, and a trailing
`start` leaves exactly the listener it just registered (the most recent
callback). -/
theorem c2_single_subscription (ops : List SubOp) :
    ((expoRun ops).world = (expoRun ops).sub.toList ∧
      (expoRun ops).world.length ≤ 1 ∧
      (expoRun (ops ++ [SubOp.start])).world = [(expoRun ops).fresh]) ∧
    ((mockRun ops).world = (mockRun ops).intervalId.toList ∧
      (mockRun ops).world.length ≤ 1 ∧
      (mockRun (ops ++ [SubOp.start])).world =
        [(mockRun ops).fresh]) := by
  have he := expoFold_inv ops expoInit (by simp [expoInit])
  have hm := mockFold_inv ops mockInit (by simp [mockInit])
  rw [expoRun, mockRun] at *
  refine ⟨⟨he, ?_, ?_⟩, ⟨hm.1, ?_, ?_⟩⟩
  · rw [he]; cases (List.foldl (fun c op => expoStep op c) expoInit ops).sub <;>
      simp
  · rw [expoRun, List.foldl_append]
    set c := List.foldl (fun c op => expoStep op c) expoInit ops
    cases hs : c.sub <;> simp [expoStep, hs, he, List.erase_cons]
  · rw [hm.1]
    cases (List.foldl (fun c op => mockStep op c) mockInit ops).intervalId <;>
      simp
  · rw [mockRun, List.foldl_append]
    set c := List.foldl (fun c op => mockStep op c) mockInit ops
    cases hs : c.intervalId <;>
      simp [mockStep, mockStopEffect, hs, hm.1, hm.2, List.erase_cons]

/-! ### Claim C10 -/

/-- Claim C10: the cleanup closure returned by
`ExpoPedometerAdapter.startStepCounting` nulls the subscription handle and
removes the live listener but leaves `lastStepCount` (and the counter)
unchanged, while `stopStepCounting` resets `lastStepCount` to `0`; a `start`
performed after cleanup therefore still carries the old baseline. -/
theorem c10_cleanup_frame (c : ExpoCfg) :
    (expoCleanup c).sub = none ∧
    (expoCleanup c).lastStepCount = c.lastStepCount ∧
    (expoCleanup c).fresh = c.fresh ∧
    (c.world = c.sub.toList → (expoCleanup c).world = []) ∧
    (expoStep SubOp.stop c).lastStepCount = 0 ∧
    (expoStep SubOp.start (expoCleanup c)).lastStepCount =
      c.lastStepCount := by
  cases hs : c.sub with
  | none => simp [expoCleanup, expoStep, hs]
  | some s =>
    refine ⟨?_, ?_, ?_, ?_, ?_, ?_⟩ <;>
      simp [expoCleanup, expoStep, hs, List.erase_cons]
    intro h
    rw [h]
    simp [List.erase_cons]

/-- Witness for C10 at a state with a live subscription and a non-zero
baseline. -/
theorem c10_cleanup_frame_witness :
    (expoCleanup ⟨some 0, 42, [0], 1⟩).sub = none ∧
    (expoCleanup ⟨some 0, 42, [0], 1⟩).lastStepCount = 42 ∧
    (expoCleanup ⟨some 0, 42, [0], 1⟩).fresh = 1 ∧
    (expoCleanup ⟨some 0, 42, [0], 1⟩).world = [] ∧
    (expoStep SubOp.stop ⟨some 0, 42, [0], 1⟩).lastStepCount = 0 ∧
    (expoStep SubOp.start (expoCleanup ⟨some 0, 42, [0], 1⟩)).lastStepCount
      = 42 := by
  obtain ⟨h1, h2, h3, h4, h5, h6⟩ := c10_cleanup_frame ⟨some 0, 42, [0], 1⟩
  exact ⟨h1, h2, h3, h4 (by decide), h5, h6⟩

/-! ### Claim C7 -/

/-- The C7 invariant: the derived fields of a `StepData` are the calculator
applied to its `steps` with the default parameters. -/
def DerivedMetrics (d : StepData) : Prop :=
  d.distance = calculateDistance d.steps DEFAULT_STRIDE_LENGTH ∧
  d.calories = calculateCalories d.steps DEFAULT_WEIGHT_KG ∧
  d.activeMinutes = calculateActiveMinutes d.steps DEFAULT_STEPS_PER_MINUTE

/-- `expoGetStepCount` always satisfies the derived-metrics invariant, also
on the error branch (whose literal zeros agree with the calculator at `0`). -/
lemma derived_expoGetStepCount (s e : ℤ) (ped : PedOracle) :
    DerivedMetrics (expoGetStepCount s e ped) := by
  rw [expoGetStepCount]
  cases ped s e with
  | ok r => exact ⟨rfl, rfl, rfl⟩
  | error u =>
    obtain ⟨h1, h2, h3⟩ := calc_at_zero
    exact ⟨h1.symm, h2.symm, h3.symm⟩

/-- Claim C7: every `StepData` produced by either adapter — range queries,
today queries, and every entry of a historical query — carries
`distance`, `calories` and `activeMinutes` equal to the calculator applied
to its `steps` with the default parameters.  (Records are immutable values
in the embedding; nothing in the code writes to a record after building
it.) -/
theorem c7_derived_fields (s e t days : ℤ) (rand : ℕ → ℚ)
    (ped : PedOracle) :
    DerivedMetrics (mockGetStepCount s e rand) ∧
    DerivedMetrics (mockGetTodaySteps t) ∧
    (∀ d ∈ mockGetHistoricalSteps days t rand,
      DerivedMetrics d.toStepData) ∧
    DerivedMetrics (expoGetStepCount s e ped) ∧
    DerivedMetrics (expoGetTodaySteps t ped) ∧
    (∀ d ∈ expoGetHistoricalSteps days t ped,
      DerivedMetrics d.toStepData) := by
  refine ⟨⟨rfl, rfl, rfl⟩, ⟨rfl, rfl, rfl⟩, ?_,
    derived_expoGetStepCount s e ped,
    derived_expoGetStepCount (startOfDayMs t) t ped, ?_⟩
  · intro d hd
    rw [mockGetHistoricalSteps, List.mem_reverse] at hd
    obtain ⟨i, _, rfl⟩ := List.mem_map.mp hd
    exact ⟨rfl, rfl, rfl⟩
  · intro d hd
    rw [expoGetHistoricalSteps, List.mem_reverse] at hd
    obtain ⟨i, _, rfl⟩ := List.mem_map.mp hd
    exact derived_expoGetStepCount _ _ ped

/-- Witness for C7: the invariant evaluated on concrete outputs of every
operation, including one member of each historical list. -/
theorem c7_derived_fields_witness :
    DerivedMetrics (mockGetStepCount 0 0 fun _ => 0) ∧
    DerivedMetrics (mockGetTodaySteps 0) ∧
    DerivedMetrics (mockHistoricalDay 0 (fun _ => 0) 0).toStepData ∧
    DerivedMetrics (expoGetStepCount 0 0 fun _ _ => Except.ok none) ∧
    DerivedMetrics (expoGetTodaySteps 0 fun _ _ => Except.ok none) ∧
    DerivedMetrics
      (expoHistoricalDay 0 (fun _ _ => Except.ok none) 0).toStepData := by
  obtain ⟨h1, h2, h3, h4, h5, h6⟩ :=
    c7_derived_fields 0 0 0 1 (fun _ => 0) (fun _ _ => Except.ok none)
  refine ⟨h1, h2, h3 _ ?_, h4, h5, h6 _ ?_⟩
  · simp [mockGetHistoricalSteps]
  · simp [expoGetHistoricalSteps]

/-! ### Claim C8 -/

/-- Element `h` of the hourly breakdown, for `h < 24`. -/
lemma breakdown_getElem (d : ℤ) (ped : PedOracle) (h : ℕ) (hh : h < 24) :
    (expoGetHourlyBreakdown d ped)[h]? = some
      { hour := h
        steps := match ped (d + (h : ℤ) * msPerHour)
                         (d + (h : ℤ) * msPerHour + 3599999) with
                 | .ok r => r.getD 0
                 | .error _ => 0
        timestamp := d + (h : ℤ) * msPerHour } := by
  rw [expoGetHourlyBreakdown, List.getElem?_map, List.getElem?_range hh]
  rfl

/-- Claim C8: a failed range query never escapes `getStepCount` — the result
is the all-zero record carrying the same `id`, `startDate`, `endDate` and
`source` as any successful call on the same range — and in the hourly
breakdown a failed hour-`h` sub-query yields `steps = 0` for entry `h`
alone, every entry being a function of the oracle's answer on its own
hour range only. -/
theorem c8_error_degradation (s e : ℤ) (ped ped' : PedOracle) :
    (ped s e = .error () →
      (expoGetStepCount s e ped).steps = 0 ∧
      (expoGetStepCount s e ped).distance = 0 ∧
      (expoGetStepCount s e ped).calories = 0 ∧
      (expoGetStepCount s e ped).activeMinutes = 0 ∧
      (expoGetStepCount s e ped).id = (expoGetStepCount s e ped').id ∧
      (expoGetStepCount s e ped).startDate =
        (expoGetStepCount s e ped').startDate ∧
      (expoGetStepCount s e ped).endDate =
        (expoGetStepCount s e ped').endDate ∧
      (expoGetStepCount s e ped).source =
        (expoGetStepCount s e ped').source) ∧
    ∀ (d : ℤ) (h : ℕ), h < 24 →
      ((ped (d + (h : ℤ) * msPerHour)
            (d + (h : ℤ) * msPerHour + 3599999) = .error () →
        (expoGetHourlyBreakdown d ped)[h]? =
          some { hour := h, steps := 0,
                 timestamp := d + (h : ℤ) * msPerHour }) ∧
      ∀ ped₂ : PedOracle,
        ped₂ (d + (h : ℤ) * msPerHour)
             (d + (h : ℤ) * msPerHour + 3599999) =
          ped (d + (h : ℤ) * msPerHour)
              (d + (h : ℤ) * msPerHour + 3599999) →
        (expoGetHourlyBreakdown d ped₂)[h]? =
          (expoGetHourlyBreakdown d ped)[h]?) := by
  constructor
  · intro herr
    rw [expoGetStepCount, herr]
    cases hok : ped' s e with
    | ok r => rw [expoGetStepCount, hok]; exact ⟨rfl, rfl, rfl, rfl, rfl, rfl, rfl, rfl⟩
    | error u => rw [expoGetStepCount, hok]; exact ⟨rfl, rfl, rfl, rfl, rfl, rfl, rfl, rfl⟩
  · intro d h hh
    constructor
    · intro herr
      rw [breakdown_getElem d ped h hh, herr]
    · intro ped₂ hagree
      rw [breakdown_getElem d ped h hh, breakdown_getElem d ped₂ h hh,
        hagree]

/-- Witness for C8: a concrete always-failing oracle against a concrete
successful one, and hour `3` of a breakdown under an oracle failing
everywhere, compared with an oracle that agrees at hour `3`. -/
theorem c8_error_degradation_witness :
    ((expoGetStepCount 0 1 fun _ _ => Except.error ()).steps = 0 ∧
      (expoGetStepCount 0 1 fun _ _ => Except.error ()).distance = 0 ∧
      (expoGetStepCount 0 1 fun _ _ => Except.error ()).calories = 0 ∧
      (expoGetStepCount 0 1 fun _ _ => Except.error ()).activeMinutes = 0 ∧
      (expoGetStepCount 0 1 fun _ _ => Except.error ()).id =
        (expoGetStepCount 0 1 fun _ _ => Except.ok (some 5)).id ∧
      (expoGetStepCount 0 1 fun _ _ => Except.error ()).startDate =
        (expoGetStepCount 0 1 fun _ _ => Except.ok (some 5)).startDate ∧
      (expoGetStepCount 0 1 fun _ _ => Except.error ()).endDate =
        (expoGetStepCount 0 1 fun _ _ => Except.ok (some 5)).endDate ∧
      (expoGetStepCount 0 1 fun _ _ => Except.error ()).source =
        (expoGetStepCount 0 1 fun _ _ => Except.ok (some 5)).source) ∧
    (expoGetHourlyBreakdown 0 fun _ _ => Except.error ())[3]? =
      some { hour := 3, steps := 0, timestamp := (3 : ℤ) * msPerHour } ∧
    (expoGetHourlyBreakdown 0 fun _ _ => Except.error ())[3]? =
      (expoGetHourlyBreakdown 0 fun _ _ => Except.error ())[3]? := by
  obtain ⟨h1, h2⟩ :=
    c8_error_degradation 0 1 (fun _ _ => Except.error ())
      (fun _ _ => Except.ok (some 5))
  obtain ⟨h3, h4⟩ := h2 0 3 (by decide)
  refine ⟨h1 rfl, ?_, h4 _ rfl⟩
  have := h3 rfl
  simpa using this

/-! ### Claim C4 -/

/-- The hour fields of `generateHourlyData` are `0..24` (25 entries). -/
lemma generateHourlyData_hours (s : ℕ) (t : ℤ) :
    (generateHourlyData s t).map (fun h => h.hour) = List.range 25 := by
  rw [generateHourlyData, List.map_map]
  show distribution.enum.map Prod.fst = List.range 25
  rw [List.enum_map_fst]
  rfl

/-- The steps fields of `generateHourlyData` are the floored shares of the
weight table. -/
lemma generateHourlyData_steps (s : ℕ) (t : ℤ) :
    (generateHourlyData s t).map (fun h => h.steps) =
      distribution.map (fun p => s * p / 100) := by
  rw [generateHourlyData, List.map_map]
  show distribution.enum.map ((fun p => s * p / 100) ∘ Prod.snd) = _
  rw [← List.map_map, List.enum_map_snd]

/-- `generateHourlyData` always yields 25 entries. -/
lemma generateHourlyData_length (s : ℕ) (t : ℤ) :
    (generateHourlyData s t).length = 25 := by
  simp [generateHourlyData]
  rfl

/-- Bounds on the floored hourly sum: the weight table totals `145/100`, and
each of the 25 entries truncates by less than one step. -/
lemma hourlySum_bounds (s : ℕ) (t : ℤ) :
    100 * ((generateHourlyData s t).map (fun h => h.steps)).sum ≤ 145 * s ∧
    145 * s <
      100 * ((generateHourlyData s t).map (fun h => h.steps)).sum + 2500 := by
  rw [generateHourlyData_steps]
  simp only [distribution, List.map_cons, List.map_nil, List.sum_cons,
    List.sum_nil]
  omega

/-- The hourly data of a historical mock record is `generateHourlyData`
applied to that record's steps. -/
lemma mockHistoricalDay_hourlyData (now : ℤ) (rand : ℕ → ℚ) (i : ℕ) :
    (mockHistoricalDay now rand i).hourlyData =
      generateHourlyData (mockHistoricalDay now rand i).steps now := rfl

/-- Claim C4, counterexample: a weekday record with total `10000` steps
(random draw `3/5`) has floored hourly parts summing to `14500`, which
exceeds — not falls short of — the day total, because the 25-entry weight
table sums to `1.45`, not `1`. -/
theorem c4_hourly_sum_counterexample :
    ((mockGetHistoricalSteps 1 0 fun _ => 3 / 5).map fun d =>
        (((d.hourlyData.map fun h => h.steps).sum), d.steps)) =
      [(14500, 10000)] ∧ ¬ (14500 : ℕ) ≤ 10000 := by
  have hsteps : (mockHistoricalDay 0 (fun _ => 3 / 5) 0).steps = 10000 := by
    rw [mockHistoricalDay]
    norm_num [dayOfWeek, msPerDay]
    decide
  have hlist : mockGetHistoricalSteps 1 0 (fun _ => 3 / 5) =
      [mockHistoricalDay 0 (fun _ => 3 / 5) 0] := rfl
  refine ⟨?_, by norm_num⟩
  rw [hlist, List.map_cons, List.map_nil,
    mockHistoricalDay_hourlyData, generateHourlyData_steps, hsteps]
  decide

/-- Claim C4 as amended: for every record of
`MockSensorAdapter.getHistoricalSteps`, the hourly breakdown has 25 entries
and the sum `Σ` of the floored per-hour steps satisfies
`145·steps − 2500 < 100·Σ ≤ 145·steps` — the weight table has 25 entries
whose fractions total `1.45`, each truncated independently — so the sum can
exceed the day total (by roughly 45%) rather than fall short of it by at
most 23. -/
theorem c4_hourly_sum_bounds (days now : ℤ) (rand : ℕ → ℚ)
    (d : DailyStepData) (hd : d ∈ mockGetHistoricalSteps days now rand) :
    d.hourlyData.length = 25 ∧
    100 * ((d.hourlyData.map fun h => h.steps).sum) ≤ 145 * d.steps ∧
    145 * d.steps <
      100 * ((d.hourlyData.map fun h => h.steps).sum) + 2500 := by
  rw [mockGetHistoricalSteps, List.mem_reverse] at hd
  obtain ⟨i, _, rfl⟩ := List.mem_map.mp hd
  rw [mockHistoricalDay_hourlyData]
  exact ⟨generateHourlyData_length _ _, hourlySum_bounds _ _⟩

/-- Witness for C4 at the first record of a one-day query. -/
theorem c4_hourly_sum_bounds_witness :
    (mockHistoricalDay 0 (fun _ => 0) 0).hourlyData.length = 25 ∧
    100 * (((mockHistoricalDay 0 (fun _ => 0) 0).hourlyData.map
        fun h => h.steps).sum) ≤
      145 * (mockHistoricalDay 0 (fun _ => 0) 0).steps ∧
    145 * (mockHistoricalDay 0 (fun _ => 0) 0).steps <
      100 * (((mockHistoricalDay 0 (fun _ => 0) 0).hourlyData.map
          fun h => h.steps).sum) + 2500 :=
  c4_hourly_sum_bounds 1 0 (fun _ => 0) _ (by simp [mockGetHistoricalSteps])

/-! ### Claim C1 -/

/-- The id, dates and source of `expoGetStepCount` do not depend on the
oracle's answer. -/
lemma expoGetStepCount_frame (s e : ℤ) (ped : PedOracle) :
    (expoGetStepCount s e ped).startDate = s ∧
    (expoGetStepCount s e ped).endDate = e ∧
    (expoGetStepCount s e ped).source = Source.pedometer := by
  rw [expoGetStepCount]
  cases ped s e <;> exact ⟨rfl, rfl, rfl⟩

/-- The start date of an Expo historical record is midnight of day
`today - i`. -/
lemma expoHistoricalDay_startDate (now : ℤ) (ped : PedOracle) (i : ℕ) :
    (expoHistoricalDay now ped i).startDate =
      startOfDayMs (now - (i : ℤ) * msPerDay) :=
  (expoGetStepCount_frame _ _ ped).1

/-- The hourly data of an Expo historical record is the 24-hour breakdown of
its day. -/
lemma expoHistoricalDay_hourlyData (now : ℤ) (ped : PedOracle) (i : ℕ) :
    (expoHistoricalDay now ped i).hourlyData =
      expoGetHourlyBreakdown (startOfDayMs (now - (i : ℤ) * msPerDay))
        ped := rfl

/-- The Expo hourly breakdown always has 24 entries. -/
lemma expoGetHourlyBreakdown_length (d : ℤ) (ped : PedOracle) :
    (expoGetHourlyBreakdown d ped).length = 24 := by
  simp [expoGetHourlyBreakdown]

/-- The hour fields of the Expo hourly breakdown are exactly `0..23` in
order. -/
lemma expoGetHourlyBreakdown_hours (d : ℤ) (ped : PedOracle) :
    (expoGetHourlyBreakdown d ped).map (fun h => h.hour) = List.range 24 := by
  rw [expoGetHourlyBreakdown, List.map_map]
  show (List.range 24).map id = List.range 24
  exact List.map_id _

/-- Claim C1, evaluated: the Expo adapter satisfies the claim at `days = 5`
(5 records, strictly ascending start dates one day apart, each with 24
hourly entries whose hours are exactly `0..23`), and `days ≤ 0` yields the
empty sequence for both adapters; but the mock adapter violates the
hourly-shape part: at the failing input `getHistoricalSteps(1)` its single
record carries 25 `hourlyData` entries whose hour fields are `0..24`. -/
theorem c1_historical_shape :
    (∀ ped : PedOracle,
      (expoGetHistoricalSteps 5 0 ped).length = 5 ∧
      ((expoGetHistoricalSteps 5 0 ped).map fun d => d.startDate) =
        [-345600000, -259200000, -172800000, -86400000, 0] ∧
      ((expoGetHistoricalSteps 5 0 ped).map fun d =>
          (d.hourlyData.length, d.hourlyData.map fun h => h.hour)) =
        List.replicate 5 (24, List.range 24)) ∧
    (∀ (now : ℤ) (rand : ℕ → ℚ) (ped : PedOracle),
      mockGetHistoricalSteps 0 now rand = [] ∧
      mockGetHistoricalSteps (-3) now rand = [] ∧
      expoGetHistoricalSteps 0 now ped = [] ∧
      expoGetHistoricalSteps (-3) now ped = []) ∧
    ((mockGetHistoricalSteps 1 0 fun _ => 0).map fun d =>
        (d.hourlyData.length, d.hourlyData.map fun h => h.hour)) =
      [(25, List.range 25)] := by
  refine ⟨?_, ?_, ?_⟩
  · intro ped
    refine ⟨by simp [expoGetHistoricalSteps], ?_, ?_⟩
    · rw [expoGetHistoricalSteps, List.map_reverse, List.map_map]
      have h : ((fun d : DailyStepData => d.startDate) ∘
          expoHistoricalDay 0 ped) = fun i : ℕ =>
            startOfDayMs (0 - (i : ℤ) * msPerDay) := by
        funext i
        exact expoHistoricalDay_startDate 0 ped i
      rw [h]
      decide
    · rw [expoGetHistoricalSteps, List.map_reverse, List.map_map]
      have h : ((fun d : DailyStepData =>
          (d.hourlyData.length, d.hourlyData.map fun h => h.hour)) ∘
            expoHistoricalDay 0 ped) =
          fun _ : ℕ => ((24 : ℕ), List.range 24) := by
        funext i
        rw [Function.comp_apply, expoHistoricalDay_hourlyData,
          expoGetHourlyBreakdown_length, expoGetHourlyBreakdown_hours]
      rw [h]
      decide
  · exact fun now rand ped => ⟨rfl, rfl, rfl, rfl⟩
  · have hlist : mockGetHistoricalSteps 1 0 (fun _ => 0) =
        [mockHistoricalDay 0 (fun _ => 0) 0] := rfl
    rw [hlist, List.map_cons, List.map_nil, mockHistoricalDay_hourlyData,
      generateHourlyData_length, generateHourlyData_hours]

/-! ### Claim C3 -/

/-- The steps field of a mock range query, unfolded. -/
lemma mockGetStepCount_steps (s e : ℤ) (rand : ℕ → ℚ) :
    (mockGetStepCount s e rand).steps =
      (max 0 (⌊|((e : ℚ)) - ((s : ℚ))| / 3600000 * 400⌋ +
        (⌊rand 0 * 200⌋ - 100))).toNat := rfl

/-- The steps field of the mock today query, unfolded. -/
lemma mockGetTodaySteps_steps (now : ℤ) :
    (mockGetTodaySteps now).steps =
      generateRealisticDailySteps (hourOfDay now).toNat := rfl

/-- Claim C3, counterexample: at local noon of epoch day 0 with the zero
random stream, `MockSensorAdapter.getTodaySteps()` returns steps `7650`
(diurnal table) while `getStepCount(startOfLocalDay, now)` returns steps
`4700` (`12 h × 400 − 100`), so the two records differ: the mock adapter's
today query is not sugar for its range query. -/
theorem c3_today_counterexample :
    (mockGetTodaySteps 43200000).steps = 7650 ∧
    (mockGetStepCount (startOfDayMs 43200000) 43200000 fun _ => 0).steps =
      4700 ∧
    mockGetTodaySteps 43200000 ≠
      mockGetStepCount (startOfDayMs 43200000) 43200000 fun _ => 0 := by
  have h0 : startOfDayMs 43200000 = 0 := by decide
  have h1 : (mockGetTodaySteps 43200000).steps = 7650 := by
    rw [mockGetTodaySteps_steps]
    decide
  have h2 : (mockGetStepCount (startOfDayMs 43200000) 43200000
      fun _ => 0).steps = 4700 := by
    rw [mockGetStepCount_steps, h0]
    norm_num
    decide
  refine ⟨h1, h2, fun heq => ?_⟩
  have := congrArg StepData.steps heq
  rw [h1, h2] at this
  exact absurd this (by decide)

/-- Claim C3 as amended: `ExpoPedometerAdapter.getTodaySteps()` is exactly
`getStepCount(startOfLocalDay, now)`, but `MockSensorAdapter.getTodaySteps()`
is not: it reads the deterministic diurnal table instead, so at any local
noon it reports `7650` steps while every possible
`getStepCount(startOfLocalDay, now)` outcome reports fewer (at most
`12.99 h × 400 + 99`). -/
theorem c3_today_sugar (now : ℤ) (ped : PedOracle) (rand : ℕ → ℚ)
    (h12 : hourOfDay now = 12) (hr0 : 0 ≤ rand 0) (hr1 : rand 0 < 1) :
    expoGetTodaySteps now ped =
      expoGetStepCount (startOfDayMs now) now ped ∧
    (mockGetTodaySteps now).steps = 7650 ∧
    (mockGetStepCount (startOfDayMs now) now rand).steps < 7650 ∧
    mockGetTodaySteps now ≠ mockGetStepCount (startOfDayMs now) now rand := by
  have hms : now - startOfDayMs now = Int.fmod now msPerDay := by
    rw [startOfDayMs, Int.fmod_def]
    ring
  set m : ℤ := Int.fmod now msPerDay with hm
  have hmE : m = now % msPerDay := Int.fmod_eq_emod now (by norm_num [msPerDay])
  have h12E : m / msPerHour = 12 := by
    rw [hourOfDay, ← hm] at h12
    rw [← Int.fdiv_eq_ediv m (by norm_num [msPerHour])]
    exact h12
  have hmbounds : 12 * msPerHour ≤ m ∧ m < 13 * msPerHour := by
    rw [msPerHour] at h12E ⊢
    constructor <;> omega
  have hsteps1 : (mockGetTodaySteps now).steps = 7650 := by
    rw [mockGetTodaySteps_steps, hourOfDay, ← hm, ← Int.fdiv_eq_ediv m (by norm_num [msPerHour])] at *
    rw [h12]
    decide
  have habs : |((now : ℚ)) - ((startOfDayMs now : ℤ) : ℚ)| = ((m : ℤ) : ℚ) := by
    have hcast : ((now : ℚ)) - ((startOfDayMs now : ℤ) : ℚ) =
        ((now - startOfDayMs now : ℤ) : ℚ) := by push_cast; ring
    rw [hcast, hms]
    have hm0 : (0 : ℤ) ≤ m := by
      rw [hmE]
      exact Int.emod_nonneg now (by norm_num [msPerDay])
    exact abs_of_nonneg (by exact_mod_cast hm0)
  have hbase : ⌊((m : ℤ) : ℚ) / 3600000 * 400⌋ = m / 9000 := by
    have harg : ((m : ℤ) : ℚ) / 3600000 * 400 = ((m : ℤ) : ℚ) / ((9000 : ℕ) : ℚ) := by
      push_cast
      ring
    rw [harg, Rat.floor_intCast_div_natCast]
    norm_num
  have hvar : ⌊rand 0 * 200⌋ - 100 ≤ 99 := by
    have : ⌊rand 0 * 200⌋ < 200 := Int.floor_lt.mpr (by push_cast; linarith)
    omega
  have hsum : ⌊|((now : ℚ)) - ((startOfDayMs now : ℤ) : ℚ)| / 3600000 * 400⌋ +
      (⌊rand 0 * 200⌋ - 100) ≤ 5298 := by
    rw [habs, hbase]
    rw [msPerHour] at hmbounds
    omega
  have hsteps2 : (mockGetStepCount (startOfDayMs now) now rand).steps < 7650 := by
    rw [mockGetStepCount_steps]
    have hle : (max 0 (⌊|((now : ℚ)) - ((startOfDayMs now : ℤ) : ℚ)| / 3600000 * 400⌋ +
        (⌊rand 0 * 200⌋ - 100))).toNat ≤ 5298 :=
      Int.toNat_le.mpr (max_le (by norm_num) (le_trans hsum (by norm_num)))
    omega
  refine ⟨rfl, hsteps1, hsteps2, fun heq => ?_⟩
  have hc := congrArg StepData.steps heq
  rw [hsteps1] at hc
  rw [← hc] at hsteps2
  exact absurd hsteps2 (by omega)

/-- Witness for C3 at local noon of epoch day 0 with the zero random
stream and an always-null pedometer oracle. -/
theorem c3_today_sugar_witness :
    expoGetTodaySteps 43200000 (fun _ _ => Except.ok none) =
      expoGetStepCount (startOfDayMs 43200000) 43200000
        (fun _ _ => Except.ok none) ∧
    (mockGetTodaySteps 43200000).steps = 7650 ∧
    (mockGetStepCount (startOfDayMs 43200000) 43200000 fun _ => 0).steps <
      7650 ∧
    mockGetTodaySteps 43200000 ≠
      mockGetStepCount (startOfDayMs 43200000) 43200000 fun _ => 0 :=
  c3_today_sugar 43200000 (fun _ _ => Except.ok none) (fun _ => 0)
    (by decide) (le_refl 0) zero_lt_one

end RNSensors
